import Mathlib

/-!
Verification development for the FLPX project (an FL Studio project-file
codec, differ and merger written in Python).  The Python sources
`flp_read.py`, `flp_write.py`, `flp_diff.py`, `fl_helpers.py` and
`_types.py` are shallowly embedded below: byte strings become `List Nat`
(each element a byte value), Python ints become `Nat`/`Int`, dictionaries
become association lists with Python insertion/update semantics, and
code that can raise becomes `Except String`.
-/

namespace FLPX

/-- Embedding of `btoi` (flp_read.py, line 37): convert little-endian
bytes to an int (`int.from_bytes(bytes, "little")`). The empty byte
string converts to 0. -/
def btoi : List Nat → Nat
  | [] => 0
  | b :: rest => b + 256 * btoi rest

/-- Little-endian digits of `n` padded to `length` bytes (the successful
case of Python `int.to_bytes`). -/
def itobDigits : Nat → Nat → List Nat
  | _, 0 => []
  | n, l + 1 => (n % 256) :: itobDigits (n / 256) l

/-- Embedding of `itob` (flp_write.py, line 20): `int.to_bytes(x, length,
"little")`, which raises OverflowError when `x` is negative or does not
fit in `length` bytes. -/
def itob (x : Int) (length : Nat) : Except String (List Nat) :=
  if 0 ≤ x ∧ x < (256 : Int) ^ length then .ok (itobDigits x.toNat length)
  else .error "OverflowError"

/-- Python slice `l[a:b]` on a byte string (never raises; clamps). -/
def pySlice (l : List Nat) (a b : Nat) : List Nat :=
  (l.take b).drop a

/-- Embedding of `_event_size_to_bytes` (flp_write.py, lines 31-42): the
TEXT-event size encoding.  `while s != 0` emits the low 7 bits with the
continuation bit 128 set whenever the shifted value is still nonzero.
Note the loop body never runs for `s = 0`, so 0 encodes to the EMPTY
byte string. -/
def _event_size_to_bytes (s : Nat) : List Nat :=
  if h : s = 0 then []
  else
    let nextByte := s &&& 127
    let s' := s >>> 7
    (if s' ≠ 0 then nextByte ||| 128 else nextByte) :: _event_size_to_bytes s'
termination_by s
decreasing_by
  simp only [Nat.shiftRight_eq_div_pow]
  exact Nat.div_lt_self (Nat.pos_of_ne_zero h) (by norm_num)

/-- The loop of `_read_TEXT_event_size` (flp_read.py, lines 58-69).  The
stream is the remaining byte list; `f.read(1)` at end-of-stream returns
the empty byte string, whose `btoi` is 0, so the accumulated size is
returned (the missing byte is read as 0).  Returns the decoded size and
the unread remainder of the stream. -/
def readTEXTLoop : List Nat → Nat → Nat → Nat × List Nat
  | [], _, eventSize => (eventSize, [])
  | byte :: rest, shiftAmnt, eventSize =>
    let eventSize' := eventSize + ((byte &&& 127) <<< shiftAmnt)
    if byte &&& 128 == 128 then readTEXTLoop rest (shiftAmnt + 7) eventSize'
    else (eventSize', rest)

/-- Embedding of `_read_TEXT_event_size` (flp_read.py, lines 58-69):
parse the size of a TEXT event; first component is the size, second the
unread remainder of the stream. -/
def _read_TEXT_event_size (f : List Nat) : Nat × List Nat :=
  readTEXTLoop f 0 0

-- Bridge lemmas between the bitwise operations of the source and
-- arithmetic.

theorem land127_eq_mod (n : Nat) : n &&& 127 = n % 128 := by
  have h := Nat.and_pow_two_sub_one_eq_mod n 7
  norm_num at h
  exact h

theorem small_lor128_and127 : ∀ x < 128, (x ||| 128) &&& 127 = x := by decide

theorem small_lor128_and128 : ∀ x < 128, (x ||| 128) &&& 128 = 128 := by decide

theorem small_and128 : ∀ x < 128, x &&& 128 = 0 := by decide

theorem small_and127 : ∀ x < 128, x &&& 127 = x := by decide

theorem event_size_to_bytes_zero : _event_size_to_bytes 0 = [] := by
  rw [_event_size_to_bytes]
  simp

theorem shiftRight7_eq (s : Nat) : s >>> 7 = s / 128 := by
  simpa using Nat.shiftRight_eq_div_pow s 7

theorem event_size_to_bytes_small {s : Nat} (h0 : s ≠ 0) (h : s < 128) :
    _event_size_to_bytes s = [s] := by
  rw [_event_size_to_bytes, dif_neg h0]
  have h7 : s >>> 7 = 0 := by
    rw [shiftRight7_eq]
    exact Nat.div_eq_of_lt h
  simp only [h7, ne_eq, not_true_eq_false, if_false, ite_false]
  rw [small_and127 s h, event_size_to_bytes_zero]

theorem event_size_to_bytes_big {s : Nat} (h : 128 ≤ s) :
    _event_size_to_bytes s =
      ((s &&& 127) ||| 128) :: _event_size_to_bytes (s >>> 7) := by
  have h0 : s ≠ 0 := by omega
  have h7 : s >>> 7 ≠ 0 := by
    rw [shiftRight7_eq]
    have : 1 ≤ s / 128 := (Nat.le_div_iff_mul_le (by norm_num)).2 (by omega)
    omega
  rw [_event_size_to_bytes, dif_neg h0]
  simp only [h7, ne_eq, not_false_eq_true, if_true, ite_true]

/-- Decoding the bytes produced by the size encoder, from any starting
shift and accumulator, adds the encoded value shifted into place and
consumes the whole encoding. -/
theorem readTEXTLoop_encode (s : Nat) : ∀ shiftAmnt acc,
    readTEXTLoop (_event_size_to_bytes s) shiftAmnt acc =
      (acc + s * 2 ^ shiftAmnt, []) := by
  induction s using Nat.strong_induction_on with
  | _ s ih =>
    intro shift acc
    by_cases h : s = 0
    · subst h
      rw [event_size_to_bytes_zero]
      simp [readTEXTLoop]
    · by_cases hlt : s < 128
      · -- single byte, continuation bit clear
        rw [event_size_to_bytes_small h hlt]
        simp only [readTEXTLoop]
        rw [small_and127 s hlt, small_and128 s hlt]
        simp [Nat.shiftLeft_eq]
      · -- continuation byte then the encoding of s >>> 7
        have hmlt : s % 128 < 128 := Nat.mod_lt _ (by norm_num)
        rw [event_size_to_bytes_big (by omega), land127_eq_mod s]
        simp only [readTEXTLoop]
        rw [small_lor128_and127 _ hmlt, small_lor128_and128 _ hmlt]
        simp only [beq_self_eq_true, if_pos rfl, ite_true]
        rw [ih (s >>> 7) (by rw [shiftRight7_eq]; exact Nat.div_lt_self (Nat.pos_of_ne_zero h) (by norm_num)) (shift + 7)]
        rw [shiftRight7_eq, Nat.shiftLeft_eq, pow_add]
        have hsplit : s % 128 + 128 * (s / 128) = s := Nat.mod_add_div s 128
        have : acc + s % 128 * 2 ^ shift + s / 128 * (2 ^ shift * 2 ^ 7)
            = acc + s * 2 ^ shift := by
          calc acc + s % 128 * 2 ^ shift + s / 128 * (2 ^ shift * 2 ^ 7)
              = acc + (s % 128 + 128 * (s / 128)) * 2 ^ shift := by ring
            _ = acc + s * 2 ^ shift := by rw [hsplit]
        rw [this]

/-- C2: for every non-negative integer n, decoding the TEXT-size varint
encoding of n returns n: `_read_TEXT_event_size` applied to the byte
sequence produced by `_event_size_to_bytes n` yields n. -/
theorem C2_varint_roundtrip (n : Nat) :
    (_read_TEXT_event_size (_event_size_to_bytes n)).1 = n := by
  unfold _read_TEXT_event_size
  rw [readTEXTLoop_encode]
  simp

/-- C3: contrary to the claim, `_event_size_to_bytes 0` is the EMPTY byte
string, not the single byte 0x00 (the encoder loop body never runs when
the size is 0); decoding the single byte 0x00 does return 0. -/
theorem C3_encode_zero_is_empty :
    _event_size_to_bytes 0 = [] ∧ _event_size_to_bytes 0 ≠ [0] ∧
      (_read_TEXT_event_size [0]).1 = 0 := by
  refine ⟨event_size_to_bytes_zero, ?_, rfl⟩
  rw [event_size_to_bytes_zero]
  simp

/-- Appending an explicit 0 terminator byte to a stream does not change
the decoded size: a truncated stream is read as if terminated by 0. -/
theorem readTEXTLoop_append_zero (bs : List Nat) : ∀ shiftAmnt acc,
    (readTEXTLoop (bs ++ [0]) shiftAmnt acc).1 =
      (readTEXTLoop bs shiftAmnt acc).1 := by
  induction bs with
  | nil =>
    intro shift acc
    simp [readTEXTLoop]
  | cons b rest ih =>
    intro shift acc
    simp only [List.cons_append, readTEXTLoop]
    by_cases hb : b &&& 128 == 128
    · simp only [hb, if_pos rfl, ite_true]
      exact ih _ _
    · simp [hb]

/-- C10: the TEXT-size varint decoder is total on every finite byte
sequence: if the input ends before any byte with the continuation bit
clear, the missing byte is read as 0, so the decoded value equals the
value obtained from the input with an explicit 0 byte appended (the
7-bit groups accumulated so far); in particular the empty input decodes
to 0. -/
theorem C10_decoder_total (bs : List Nat) :
    (_read_TEXT_event_size (bs ++ [0])).1 = (_read_TEXT_event_size bs).1 ∧
      (_read_TEXT_event_size []).1 = 0 := by
  exact ⟨readTEXTLoop_append_zero bs 0 0, rfl⟩

/-! ## Project model (_types.py) and the playlist-item codec -/

/-- A Python value stored in a `misc` mapping or passed to an event
handler: an int (numeric events, ID < 192), a byte string (TEXT
events), or a list of such payloads (append-mode events). -/
inductive PValue where
  | int (n : Nat)
  | bytes (bs : List Nat)
  | list (vs : List PValue)

/-- A Python dict keyed by strings, as an insertion-ordered association
list. -/
abbrev PyDict := List (String × PValue)

/-- Python dict lookup `d[k]` (as an Option). -/
def dget : PyDict → String → Option PValue
  | [], _ => none
  | (k', v) :: rest, k => if k' = k then some v else dget rest k

/-- Python `k in d`. -/
def dcontains (d : PyDict) (k : String) : Bool :=
  (dget d k).isSome

/-- Python dict assignment `d[k] = v`: replace the value at an existing
key, else append the new key at the end. -/
def dset : PyDict → String → PValue → PyDict
  | [], k, v => [(k, v)]
  | (k', v') :: rest, k, v =>
    if k' = k then (k', v) :: rest else (k', v') :: dset rest k v

/-- `PlaylistItem` (_types.py, lines 11-27).  Strings decoded from
UTF-16-LE byte payloads are modelled as their lists of 16-bit code
units. -/
structure PlaylistItem where
  start : Int
  length : Int
  track : Int
  clipStart : Int
  clipEnd : Int
  muted : Bool
  selected : Bool
  itemType : String
  clipIndex : Int
  misc_4_6 : List Nat
  misc : List Nat

/-- `Pattern` (_types.py). -/
structure Pattern where
  name : Option (List Nat) := none
  misc : PyDict := []

/-- `Channel` (_types.py). -/
structure Channel where
  name : List Nat := []
  type : String := ""
  data : Option (List Nat) := none
  misc : PyDict := []

/-- `ArrangementTrack` (_types.py). -/
structure ArrangementTrack where
  name : Option (List Nat) := none
  misc : PyDict := []

/-- `MixerEffect` (_types.py). -/
structure MixerEffect where
  name : List Nat := []
  misc : PyDict := []

/-- `MixerTrack` (_types.py); `effects` is a Python dict keyed on the
integer slot index. -/
structure MixerTrack where
  name : Option (List Nat) := none
  effects : List (Int × MixerEffect) := []
  misc : PyDict := []

/-- `PlaylistArrangement` (_types.py). -/
structure PlaylistArrangement where
  name : Option (List Nat) := none
  items : List PlaylistItem := []
  tracks : List ArrangementTrack := []
  misc : PyDict := []

/-- `Project` (_types.py). -/
structure Project where
  projectInfo : PyDict := []
  arrangements : List PlaylistArrangement := []
  channels : List Channel := []
  patterns : List Pattern := []
  channelFilterGroups : List (List Nat) := []
  mixerTracks : List MixerTrack := []

/-- The keyword arguments computed by `_decode_playlist_item`
(flp_read.py, lines 84-112).  The constructor call there passes NO
`misc_4_6` argument (a required field of `PlaylistItem`), and its `misc`
argument is the 4-byte slice `itemData[16:20]`, not the 8 bytes at
offsets 16-24 that `_make_arrangement_data` writes back. -/
structure DecodedPlaylistFields where
  start : Nat
  length : Nat
  track : Int
  clipStart : Nat
  clipEnd : Nat
  misc : List Nat
  muted : Bool
  selected : Bool
  itemType : String
  clipIndex : Nat

/-- Embedding of the field computations of `_decode_playlist_item`
(flp_read.py, lines 84-112).  The only exception Python can raise while
evaluating the keyword arguments is the IndexError from `itemData[19]`
when the record is shorter than 20 bytes. -/
def _decode_playlist_item_fields (itemData : List Nat) :
    Except String DecodedPlaylistFields :=
  match itemData[19]? with
  | none => .error "IndexError: index out of range"
  | some byte19 =>
    let itemId := btoi (pySlice itemData 6 8)
    .ok {
      start := btoi (pySlice itemData 0 4)
      length := btoi (pySlice itemData 8 12)
      track := 500 - (btoi (pySlice itemData 12 16) : Int)
      clipStart := btoi (pySlice itemData 24 28)
      clipEnd := btoi (pySlice itemData 28 32)
      misc := pySlice itemData 16 20
      muted := byte19 &&& 32 != 0
      selected := byte19 &&& 128 != 0
      itemType := if itemId > 20480 then "pattern" else "channel"
      clipIndex := if itemId > 20480 then itemId - 20481 else itemId }

/-- Embedding of `_decode_playlist_item` itself: after the keyword
arguments are computed, the `PlaylistItem(...)` constructor call omits
the required `misc_4_6` field, so in the source the construction raises
TypeError for every input record. -/
def _decode_playlist_item (itemData : List Nat) : Except String PlaylistItem :=
  match _decode_playlist_item_fields itemData with
  | .error e => .error e
  | .ok _ =>
    .error "TypeError: PlaylistItem constructor missing required argument misc_4_6"

/-- The per-item 32-byte record assembled by `_make_arrangement_data`
(flp_write.py, lines 70-85), before its `assert len(item_bytes) == 32`. -/
def makeItemBytes (item : PlaylistItem) : Except String (List Nat) := do
  let b0 ← itob item.start 4
  let b6 ← itob
    (if item.itemType = "pattern" then item.clipIndex + 20481 else item.clipIndex) 2
  let b8 ← itob item.length 4
  let b12 ← itob (500 - item.track) 4
  let b24 ← itob item.clipStart 4
  let b28 ← itob item.clipEnd 4
  .ok (b0 ++ item.misc_4_6 ++ b6 ++ b8 ++ b12 ++ item.misc ++ b24 ++ b28)

/-- The loop of `_make_arrangement_data`, with the per-item assert. -/
def makeArrangementLoop : List PlaylistItem → List Nat → Except String (List Nat)
  | [], out => .ok out
  | item :: rest, out =>
    match makeItemBytes item with
    | .error e => .error e
    | .ok item_bytes =>
      if item_bytes.length = 32 then makeArrangementLoop rest (out ++ item_bytes)
      else .error "AssertionError"

/-- Embedding of `_make_arrangement_data` (flp_write.py, lines 67-90),
including both asserts. -/
def _make_arrangement_data (arrangement : PlaylistArrangement) :
    Except String (List Nat) :=
  match makeArrangementLoop arrangement.items [] with
  | .error e => .error e
  | .ok out =>
    if out.length = 32 * arrangement.items.length then .ok out
    else .error "AssertionError"

/-- The 32-byte record of spec scenario 3 (a muted, selected placement
of pattern 1). -/
def c1Record : List Nat :=
  [0x00, 0x00, 0x00, 0x00, 0x00, 0x50, 0x01, 0x50,
   0x80, 0x00, 0x00, 0x00, 0xF4, 0x01, 0x00, 0x00,
   0x00, 0x00, 0x00, 0xA0, 0x40, 0x64, 0x80, 0x80,
   0x00, 0x00, 0x00, 0x00, 0x80, 0x00, 0x00, 0x00]

/-- The fields `_decode_playlist_item` computes for `c1Record`. -/
def c1Fields : DecodedPlaylistFields :=
  { start := 0, length := 128, track := 0, clipStart := 0, clipEnd := 128,
    misc := [0x00, 0x00, 0x00, 0xA0], muted := true, selected := true,
    itemType := "pattern", clipIndex := 0 }

/-- The `PlaylistItem` corresponding to `c1Fields`, completed with the
true bytes 4-6 of `c1Record` as `misc_4_6`. -/
def c1Item : PlaylistItem :=
  { start := 0, length := 128, track := 0, clipStart := 0, clipEnd := 128,
    muted := true, selected := true, itemType := "pattern", clipIndex := 0,
    misc_4_6 := [0x00, 0x50], misc := [0x00, 0x00, 0x00, 0xA0] }

/-- C1: the decode/encode round trip fails on the code.  Decoding the
32-byte record of spec scenario 3 raises TypeError (the `PlaylistItem`
constructor call omits the required `misc_4_6` argument); the computed
`misc` field is the 4-byte slice at offsets 16-20, not the 8 bytes at
offsets 16-24; and re-encoding an item carrying that 4-byte `misc`
yields a 28-byte record, so `_make_arrangement_data` fails its own
`assert len(item_bytes) == 32` instead of reproducing the 32 bytes. -/
theorem C1_roundtrip_broken :
    _decode_playlist_item c1Record =
        .error "TypeError: PlaylistItem constructor missing required argument misc_4_6" ∧
      _decode_playlist_item_fields c1Record = .ok c1Fields ∧
      c1Fields.misc.length = 4 ∧
      c1Fields.misc ≠ pySlice c1Record 16 24 ∧
      (makeItemBytes c1Item).map List.length = .ok 28 ∧
      _make_arrangement_data { items := [c1Item] } = .error "AssertionError" := by
  refine ⟨rfl, rfl, rfl, by decide, rfl, rfl⟩

/-- A 32-byte record whose unsigned value at offsets 12-16 is 501. -/
def c7Record : List Nat :=
  [0, 0, 0, 0, 0, 0x50, 1, 0,
   0, 0, 0, 0, 0xF5, 1, 0, 0,
   0, 0, 0, 0, 0, 0, 0, 0,
   0, 0, 0, 0, 0, 0, 0, 0]

/-- The fields decoded from `c7Record`. -/
def c7Fields : DecodedPlaylistFields :=
  { start := 0, length := 0, track := -1, clipStart := 0, clipEnd := 0,
    misc := [0, 0, 0, 0], muted := false, selected := false,
    itemType := "channel", clipIndex := 1 }

/-- C7 (counterexample): decoding a 32-byte record whose unsigned
32-bit value at offsets 12-16 is 501 yields track = -1, outside the
claimed range [0, 500]. -/
theorem C7_counterexample :
    _decode_playlist_item_fields c7Record = .ok c7Fields ∧
      c7Fields.track = -1 ∧ ¬ (0 ≤ c7Fields.track) := by
  refine ⟨rfl, rfl, by decide⟩

/-- C7 (amended): for every input record the decoded track value is at
most 500, and it is nonnegative exactly when the unsigned 32-bit
little-endian value at offsets 12-16 is at most 500. -/
theorem C7_track_range (r : List Nat) (f : DecodedPlaylistFields)
    (h : _decode_playlist_item_fields r = .ok f) :
    f.track ≤ 500 ∧ (0 ≤ f.track ↔ btoi (pySlice r 12 16) ≤ 500) := by
  unfold _decode_playlist_item_fields at h
  cases h19 : r[19]? with
  | none => rw [h19] at h; exact absurd h (by simp)
  | some b =>
    rw [h19] at h
    simp only [Except.ok.injEq] at h
    subst h
    simp only
    omega

/-- Witness for `C7_track_range` at the concrete record `c7Record`. -/
theorem C7_track_range_witness :
    c7Fields.track ≤ 500 ∧
      (0 ≤ c7Fields.track ↔ btoi (pySlice c7Record 12 16) ≤ 500) :=
  C7_track_range c7Record c7Fields rfl

/-! ## The stateful interpreter (flp_read.py) -/

/-- Embedding of `eid_to_ename` with the `EID_NAMES` table (flp_read.py,
lines 115-243): event IDs to symbolic names, with synthetic
`UNKNOWN_<id>` names for IDs outside the table. -/
def eid_to_ename (id : Nat) : String :=
  match id with
  | 0 => "FLP_Enabled"
  | 1 => "FLP_NoteOn"
  | 2 => "FLP_Vol"
  | 3 => "FLP_Pan"
  | 4 => "FLP_MIDIChan"
  | 5 => "FLP_MIDINote"
  | 6 => "FLP_MIDIPatch"
  | 7 => "FLP_MIDIBank"
  | 9 => "FLP_LoopActive"
  | 10 => "FLP_ShowInfo"
  | 11 => "FLP_Shuffle"
  | 12 => "FLP_MainVol"
  | 13 => "FLP_Stretch"
  | 14 => "FLP_Pitchable"
  | 15 => "FLP_Zipped"
  | 16 => "FLP_Delay_Flags"
  | 17 => "FLP_PatLength"
  | 18 => "FLP_BlockLength"
  | 19 => "FLP_UseLoopPoints"
  | 20 => "FLP_LoopType"
  | 21 => "FLP_ChanType"
  | 22 => "FLP_MixSliceNum"
  | 64 => "FLP_NewChan"
  | 65 => "FLP_NewPat"
  | 66 => "FLP_Tempo"
  | 67 => "FLP_CurrentPatNum"
  | 68 => "FLP_PatData"
  | 69 => "FLP_FX"
  | 70 => "FLP_Fade_Stereo"
  | 71 => "FLP_CutOff"
  | 72 => "FLP_DotVol"
  | 73 => "FLP_DotPan"
  | 74 => "FLP_PreAmp"
  | 75 => "FLP_Decay"
  | 76 => "FLP_Attack"
  | 77 => "FLP_DotNote"
  | 78 => "FLP_DotPitch"
  | 79 => "FLP_DotMix"
  | 80 => "FLP_MainPitch"
  | 81 => "FLP_RandChan"
  | 82 => "FLP_MixChan"
  | 83 => "FLP_Resonance"
  | 84 => "FLP_LoopBar"
  | 85 => "FLP_StDel"
  | 86 => "FLP_FX3"
  | 87 => "FLP_DotReso"
  | 88 => "FLP_DotCutOff"
  | 89 => "FLP_ShiftDelay"
  | 90 => "FLP_LoopEndBar"
  | 91 => "FLP_Dot"
  | 92 => "FLP_DotShift"
  | 128 => "FLP_Color"
  | 129 => "FLP_PlayListItem"
  | 130 => "FLP_Echo"
  | 131 => "FLP_FXSine"
  | 132 => "FLP_CutCutBy"
  | 133 => "FLP_WindowH"
  | 134 => "FLP_MiddleNote"
  | 135 => "FLP_Reserved"
  | 136 => "FLP_MainResoCutOff"
  | 137 => "FLP_DelayReso"
  | 138 => "FLP_Reverb"
  | 139 => "FLP_IntStretch"
  | 140 => "FLP_SSNote"
  | 141 => "FLP_FineTune"
  | 192 => "FLP_Text_ChanName"
  | 193 => "FLP_Text_PatName"
  | 194 => "FLP_Text_Title"
  | 195 => "FLP_Text_Comment"
  | 196 => "FLP_Text_SampleFileName"
  | 197 => "FLP_Text_URL"
  | 198 => "FLP_Text_CommentRTF"
  | 199 => "FLP_Version"
  | 201 => "FLP_Text_PluginName"
  | 208 => "FLP_MIDICtrls"
  | 209 => "FLP_Delay"
  | 210 => "FLP_TS404Params"
  | 211 => "FLP_DelayLine"
  | 212 => "FLP_NewPlugin"
  | 213 => "FLP_PluginParams"
  | 215 => "FLP_ChanParams"
  | 31 => "IsPerformanceMode"
  | 95 => "MixerTrackIcon"
  | 98 => "SlotIndex"
  | 99 => "ArrangementIndex"
  | 100 => "CurrentArrangement"
  | 145 => "ChannelFilterGroup"
  | 146 => "CurrentChannelFilterGroup"
  | 147 => "InsertAudioOutputTarget"
  | 149 => "MixerTrackColor"
  | 154 => "InsertAudioInputSource"
  | 156 => "Tempo"
  | 203 => "ChannelName"
  | 204 => "InsertName"
  | 206 => "ProjectInfoGenre"
  | 207 => "ProjectInfoAuthor"
  | 218 => "ChannelEnvelopeParams"
  | 219 => "ChannelParams"
  | 223 => "PatternAutomationData"
  | 224 => "PatternData"
  | 227 => "AutomationClipData"
  | 231 => "ChannelFilterGroupName"
  | 233 => "PlaylistData"
  | 235 => "MixerTrackRouting"
  | 238 => "TrackInfo"
  | 239 => "TrackName"
  | 241 => "ArrangementName"
  | 159 => "FLP_Version_Minor"
  | 236 => "MixerTrackInfo"
  | n => "UNKNOWN_" ++ toString n

/-- `ParserContext` (flp_read.py, lines 256-265). -/
structure ParserContext where
  currentArrangement : Int := -1
  currentArrangementTrack : Int := -1
  currentPattern : Int := -1
  currentChannel : Int := -1
  currentMixerTrack : Int := -1
  currentMixerTrackEffectSlot : Int := -1
  isMixerEffect : Bool := false
  project : Project := {}

/-- Translate a Python list index (negative indices count from the end)
into a position, or none (IndexError). -/
def pyIdx (len : Nat) (i : Int) : Option Nat :=
  if 0 ≤ i ∧ i < len then some i.toNat
  else if -(len : Int) ≤ i ∧ i < 0 then some (i + len).toNat
  else none

/-- Python `l[i]` on a list. -/
def pyGet {α : Type} (l : List α) (i : Int) : Except String α :=
  match pyIdx l.length i with
  | none => .error "IndexError: list index out of range"
  | some j =>
    match l[j]? with
    | none => .error "IndexError: list index out of range"
    | some x => .ok x

/-- In-place mutation of the element at Python index `i` of a list. -/
def pyModify {α : Type} (l : List α) (i : Int) (f : α → Except String α) :
    Except String (List α) :=
  match pyIdx l.length i with
  | none => .error "IndexError: list index out of range"
  | some j =>
    match l[j]? with
    | none => .error "IndexError: list index out of range"
    | some x =>
      match f x with
      | .error e => .error e
      | .ok x' => .ok (l.set j x')

/-- Python `bytes.decode("UTF-16-LE")`: fails on an odd byte count; the
decoded string is modelled as its list of 16-bit code units read
little-endian (surrogate validation is not modelled; no theorem depends
on it). -/
def decodeUTF16LE : List Nat → Except String (List Nat)
  | [] => .ok []
  | [_] => .error "UnicodeDecodeError"
  | a :: b :: rest =>
    match decodeUTF16LE rest with
    | .error e => .error e
    | .ok units => .ok ((a + 256 * b) :: units)

/-- Decode a handler payload that the source calls `.decode` on: an int
payload has no `.decode` attribute. -/
def asBytesDecoded : PValue → Except String (List Nat)
  | .bytes bs => decodeUTF16LE bs
  | _ => .error "AttributeError: decode"

/-- Lookup in the mixer-track `effects` dict (keyed on the int slot
index). -/
def effGet : List (Int × MixerEffect) → Int → Option MixerEffect
  | [], _ => none
  | (k', v) :: rest, k => if k' = k then some v else effGet rest k

/-- Assignment into the mixer-track `effects` dict. -/
def effSet : List (Int × MixerEffect) → Int → MixerEffect → List (Int × MixerEffect)
  | [], k, v => [(k, v)]
  | (k', v') :: rest, k, v =>
    if k' = k then (k', v) :: rest else (k', v') :: effSet rest k v

/-- Association-list lookup for a string-keyed table. -/
def alookup {β : Type} : List (String × β) → String → Option β
  | [], _ => none
  | (k', v) :: rest, k => if k' = k then some v else alookup rest k

/-- `genericProject` (flp_read.py, line 286). -/
def hGenericProject (ctx : ParserContext) (eventName : String) (contents : PValue) :
    Except String ParserContext :=
  .ok { ctx with project := { ctx.project with
    projectInfo := dset ctx.project.projectInfo eventName contents } }

/-- `genericChannel` (flp_read.py, line 289). -/
def hGenericChannel (ctx : ParserContext) (eventName : String) (contents : PValue) :
    Except String ParserContext :=
  match pyModify ctx.project.channels ctx.currentChannel
      (fun ch => .ok { ch with misc := dset ch.misc eventName contents }) with
  | .error e => .error e
  | .ok chans => .ok { ctx with project := { ctx.project with channels := chans } }

/-- `genericChannelAppend` (flp_read.py, line 292): absent keys start as
an empty list, then the payload is appended; appending to a non-list
value would be an AttributeError. -/
def hGenericChannelAppend (ctx : ParserContext) (eventName : String)
    (contents : PValue) : Except String ParserContext :=
  match pyModify ctx.project.channels ctx.currentChannel
      (fun ch =>
        match dget ch.misc eventName with
        | none => .ok { ch with misc := dset ch.misc eventName (.list [contents]) }
        | some (.list l) =>
          .ok { ch with misc := dset ch.misc eventName (.list (l ++ [contents])) }
        | some _ => .error "AttributeError: append") with
  | .error e => .error e
  | .ok chans => .ok { ctx with project := { ctx.project with channels := chans } }

/-- `genericArrangement` (flp_read.py, line 297). -/
def hGenericArrangement (ctx : ParserContext) (eventName : String)
    (contents : PValue) : Except String ParserContext :=
  match pyModify ctx.project.arrangements ctx.currentArrangement
      (fun a => .ok { a with misc := dset a.misc eventName contents }) with
  | .error e => .error e
  | .ok arrs => .ok { ctx with project := { ctx.project with arrangements := arrs } }

/-- `genericPattern` (flp_read.py, line 300). -/
def hGenericPattern (ctx : ParserContext) (eventName : String)
    (contents : PValue) : Except String ParserContext :=
  match pyModify ctx.project.patterns ctx.currentPattern
      (fun p => .ok { p with misc := dset p.misc eventName contents }) with
  | .error e => .error e
  | .ok ps => .ok { ctx with project := { ctx.project with patterns := ps } }

/-- `genericMixerTrack` (flp_read.py, line 303). -/
def hGenericMixerTrack (ctx : ParserContext) (eventName : String)
    (contents : PValue) : Except String ParserContext :=
  match pyModify ctx.project.mixerTracks ctx.currentMixerTrack
      (fun mt => .ok { mt with misc := dset mt.misc eventName contents }) with
  | .error e => .error e
  | .ok mts => .ok { ctx with project := { ctx.project with mixerTracks := mts } }

/-- `genericMixerEffect` (flp_read.py, line 306): creates the effect at
the current slot when absent, then stores the payload in its `misc`. -/
def hGenericMixerEffect (ctx : ParserContext) (eventName : String)
    (contents : PValue) : Except String ParserContext :=
  match pyModify ctx.project.mixerTracks ctx.currentMixerTrack
      (fun mt =>
        let effects :=
          if (effGet mt.effects ctx.currentMixerTrackEffectSlot).isSome then mt.effects
          else effSet mt.effects ctx.currentMixerTrackEffectSlot {}
        match effGet effects ctx.currentMixerTrackEffectSlot with
        | none => .error "KeyError"
        | some e =>
          .ok { mt with effects := (effSet effects ctx.currentMixerTrackEffectSlot
            { e with misc := dset e.misc eventName contents }) }) with
  | .error e => .error e
  | .ok mts => .ok { ctx with project := { ctx.project with mixerTracks := mts } }

/-- `genericChannelOrMixerEffect` (flp_read.py, line 312). -/
def hChannelOrMixerEffect (ctx : ParserContext) (eventName : String)
    (contents : PValue) : Except String ParserContext :=
  if ctx.isMixerEffect then hGenericMixerEffect ctx eventName contents
  else hGenericChannel ctx eventName contents

/-- `patternName` (flp_read.py, line 318). -/
def hPatternName (ctx : ParserContext) (contents : PValue) :
    Except String ParserContext :=
  match asBytesDecoded contents with
  | .error e => .error e
  | .ok s =>
    match pyModify ctx.project.patterns ctx.currentPattern
        (fun p => .ok { p with name := some s }) with
    | .error e => .error e
    | .ok ps => .ok { ctx with project := { ctx.project with patterns := ps } }

/-- `channelName` (flp_read.py, line 321): targets the current
mixer-track effect at the current slot when `isMixerEffect` (a missing
slot is a KeyError), else the current channel. -/
def hChannelName (ctx : ParserContext) (contents : PValue) :
    Except String ParserContext :=
  match asBytesDecoded contents with
  | .error e => .error e
  | .ok s =>
    if ctx.isMixerEffect then
      match pyModify ctx.project.mixerTracks ctx.currentMixerTrack
          (fun mt =>
            match effGet mt.effects ctx.currentMixerTrackEffectSlot with
            | none => .error "KeyError"
            | some e =>
              .ok { mt with effects := (effSet mt.effects
                ctx.currentMixerTrackEffectSlot { e with name := s }) }) with
      | .error e => .error e
      | .ok mts => .ok { ctx with project := { ctx.project with mixerTracks := mts } }
    else
      match pyModify ctx.project.channels ctx.currentChannel
          (fun ch => .ok { ch with name := s }) with
      | .error e => .error e
      | .ok chans => .ok { ctx with project := { ctx.project with channels := chans } }

/-- `arrangementName` (flp_read.py, line 329). -/
def hArrangementName (ctx : ParserContext) (contents : PValue) :
    Except String ParserContext :=
  match asBytesDecoded contents with
  | .error e => .error e
  | .ok s =>
    match pyModify ctx.project.arrangements ctx.currentArrangement
        (fun a => .ok { a with name := some s }) with
    | .error e => .error e
    | .ok arrs => .ok { ctx with project := { ctx.project with arrangements := arrs } }

/-- `arrangementTrackName` (flp_read.py, line 332). -/
def hArrangementTrackName (ctx : ParserContext) (contents : PValue) :
    Except String ParserContext :=
  match asBytesDecoded contents with
  | .error e => .error e
  | .ok s =>
    match pyModify ctx.project.arrangements ctx.currentArrangement
        (fun a =>
          match pyModify a.tracks ctx.currentArrangementTrack
              (fun t => .ok { t with name := some s }) with
          | .error e => .error e
          | .ok ts => .ok { a with tracks := ts }) with
    | .error e => .error e
    | .ok arrs => .ok { ctx with project := { ctx.project with arrangements := arrs } }

/-- `mixerTrackName` (flp_read.py, line 337). -/
def hMixerTrackName (ctx : ParserContext) (contents : PValue) :
    Except String ParserContext :=
  match asBytesDecoded contents with
  | .error e => .error e
  | .ok s =>
    match pyModify ctx.project.mixerTracks ctx.currentMixerTrack
        (fun mt => .ok { mt with name := some s }) with
    | .error e => .error e
    | .ok mts => .ok { ctx with project := { ctx.project with mixerTracks := mts } }

/-- `newChannel` (flp_read.py, lines 340-344): set `currentChannel` to
the payload, clear `isMixerEffect`, and append a fresh `Channel` only
when the new index is at least the channel-list length.  (Payloads of
the dispatching event 64 are always numeric.) -/
def hNewChannel (ctx : ParserContext) (contents : PValue) :
    Except String ParserContext :=
  match contents with
  | .int n =>
    .ok { ctx with
      currentChannel := (n : Int)
      isMixerEffect := false
      project := { ctx.project with channels :=
        if (n : Int) ≥ (ctx.project.channels.length : Int) then
          ctx.project.channels ++ [{}]
        else ctx.project.channels } }
  | _ => .error "TypeError"

/-- `newPattern` (flp_read.py, lines 346-350): set `currentPattern` to
payload - 1 and append a fresh `Pattern` only when that index is at
least the pattern-list length. -/
def hNewPattern (ctx : ParserContext) (contents : PValue) :
    Except String ParserContext :=
  match contents with
  | .int n =>
    let index : Int := (n : Int) - 1
    .ok { ctx with
      currentPattern := index
      project := { ctx.project with patterns :=
        if index ≥ (ctx.project.patterns.length : Int) then
          ctx.project.patterns ++ [{}]
        else ctx.project.patterns } }
  | _ => .error "TypeError"

/-- `newArrangement` (flp_read.py, lines 352-354): always appends. -/
def hNewArrangement (ctx : ParserContext) (contents : PValue) :
    Except String ParserContext :=
  match contents with
  | .int n =>
    .ok { ctx with
      currentArrangement := (n : Int)
      project := { ctx.project with
        arrangements := ctx.project.arrangements ++ [{}] } }
  | _ => .error "TypeError"

/-- `newMixerTrack` (flp_read.py, lines 356-358): always appends; the
new current index is the length before the append. -/
def hNewMixerTrack (ctx : ParserContext) (eventName : String) (contents : PValue) :
    Except String ParserContext :=
  .ok { ctx with
    currentMixerTrack := (ctx.project.mixerTracks.length : Int)
    project := { ctx.project with mixerTracks :=
      ctx.project.mixerTracks ++ [{ misc := [(eventName, contents)] }] } }

/-- `newArrangementTrack` (flp_read.py, lines 360-366): always appends a
track to the current arrangement. -/
def hNewArrangementTrack (ctx : ParserContext) (eventName : String)
    (contents : PValue) : Except String ParserContext :=
  match pyGet ctx.project.arrangements ctx.currentArrangement with
  | .error e => .error e
  | .ok arr =>
    let newIndex : Int := (arr.tracks.length : Int)
    match pyModify ctx.project.arrangements ctx.currentArrangement
        (fun a => .ok { a with tracks :=
          a.tracks ++ [{ misc := [(eventName, contents)] }] }) with
    | .error e => .error e
    | .ok arrs =>
      .ok { ctx with
        currentArrangementTrack := newIndex
        project := { ctx.project with arrangements := arrs } }

/-- `newChannelFilterGroup` (flp_read.py, line 368): always appends. -/
def hNewChannelFilterGroup (ctx : ParserContext) (contents : PValue) :
    Except String ParserContext :=
  match asBytesDecoded contents with
  | .error e => .error e
  | .ok s =>
    .ok { ctx with project := { ctx.project with
      channelFilterGroups := ctx.project.channelFilterGroups ++ [s] } }

/-- The loop of `parsePlaylistData` (flp_read.py, lines 371-378): decode
each 32-byte record and append it to the current arrangement.  Because
`_decode_playlist_item` raises TypeError on every record (missing
`misc_4_6` argument), any nonempty payload makes the whole parse fail. -/
def parsePlaylistGo (curArr : Int) (bs : List Nat) :
    Nat → Nat → Project → Except String Project
  | _, 0, proj => .ok proj
  | idx, n + 1, proj =>
    let itemData := pySlice bs (idx * 32) ((idx + 1) * 32)
    match _decode_playlist_item itemData with
    | .error e => .error e
    | .ok item =>
      match pyModify proj.arrangements curArr
          (fun a => .ok { a with items := a.items ++ [item] }) with
      | .error e => .error e
      | .ok arrs => parsePlaylistGo curArr bs (idx + 1) n { proj with arrangements := arrs }

/-- `parsePlaylistData` (flp_read.py, lines 371-378). -/
def hParsePlaylistData (ctx : ParserContext) (contents : PValue) :
    Except String ParserContext :=
  match contents with
  | .bytes bs =>
    match parsePlaylistGo ctx.currentArrangement bs 0 (bs.length / 32) ctx.project with
    | .error e => .error e
    | .ok proj => .ok { ctx with project := proj }
  | _ => .error "TypeError"

/-- `setCtxSlotIndex` (flp_read.py, lines 380-382). -/
def hSetCtxSlotIndex (ctx : ParserContext) (contents : PValue) :
    Except String ParserContext :=
  match contents with
  | .int n =>
    .ok { ctx with currentMixerTrackEffectSlot := (n : Int), isMixerEffect := true }
  | _ => .error "TypeError"

/-- Tags for the handler functions appearing in `handlerLUT`. -/
inductive HTag where
  | genericProject
  | genericChannel
  | genericChannelAppend
  | genericArrangement
  | genericPattern
  | genericMixerTrack
  | genericChannelOrMixerEffect
  | patternName
  | channelName
  | arrangementName
  | arrangementTrackName
  | mixerTrackName
  | newChannel
  | newPattern
  | newArrangement
  | newMixerTrack
  | newArrangementTrack
  | newChannelFilterGroup
  | parsePlaylistData
  | setCtxSlotIndex

/-- First quarter of the `handlerLUT` dict (the per-project entries,
flp_read.py lines 384-419). -/
def handlerLUT1 : List (String × Option HTag) :=
  [("FLP_ShowInfo", some .genericProject),
   ("FLP_Shuffle", some .genericProject),
   ("FLP_PatLength", some .genericProject),
   ("FLP_BlockLength", some .genericProject),
   ("FLP_CurrentPatNum", some .genericProject),
   ("FLP_MainPitch", some .genericProject),
   ("FLP_WindowH", some .genericProject),
   ("FLP_Text_Title", some .genericProject),
   ("FLP_Text_Comment", some .genericProject),
   ("FLP_Text_URL", some .genericProject),
   ("FLP_Text_CommentRTF", some .genericProject),
   ("FLP_Version", some .genericProject),
   ("IsPerformanceMode", some .genericProject),
   ("CurrentArrangement", some .genericProject),
   ("CurrentChannelFilterGroup", some .genericProject),
   ("Tempo", some .genericProject),
   ("ProjectInfoGenre", some .genericProject),
   ("ProjectInfoAuthor", some .genericProject),
   ("FLP_Version_Minor", some .genericProject),
   ("FLP_LoopActive", some .genericProject),
   ("UNKNOWN_28", some .genericProject),
   ("UNKNOWN_37", some .genericProject),
   ("UNKNOWN_200", some .genericProject),
   ("UNKNOWN_35", some .genericProject),
   ("UNKNOWN_23", some .genericProject),
   ("UNKNOWN_30", some .genericProject),
   ("UNKNOWN_202", some .genericProject),
   ("UNKNOWN_237", some .genericProject),
   ("UNKNOWN_216", some .genericProject),
   ("UNKNOWN_29", some .genericProject),
   ("UNKNOWN_39", some .genericProject),
   ("UNKNOWN_40", some .genericProject),
   ("UNKNOWN_38", some .genericProject),
   ("UNKNOWN_225", some .genericProject)]

/-- Second quarter of the `handlerLUT` dict (the per-channel entries,
flp_read.py lines 420-442). -/
def handlerLUT2 : List (String × Option HTag) :=
  [("FLP_NewChan", some .newChannel),
   ("FLP_Enabled", some .genericChannel),
   ("FLP_LoopType", some .genericChannel),
   ("FLP_ChanType", some .genericChannel),
   ("FLP_MixSliceNum", some .genericChannel),
   ("FLP_FX", some .genericChannel),
   ("FLP_Text_SampleFileName", some .genericChannel),
   ("FLP_Fade_Stereo", some .genericChannel),
   ("FLP_CutOff", some .genericChannel),
   ("FLP_PreAmp", some .genericChannel),
   ("FLP_Decay", some .genericChannel),
   ("FLP_Attack", some .genericChannel),
   ("FLP_Resonance", some .genericChannel),
   ("FLP_StDel", some .genericChannel),
   ("FLP_FX3", some .genericChannel),
   ("FLP_ShiftDelay", some .genericChannel),
   ("FLP_FXSine", some .genericChannel),
   ("FLP_CutCutBy", some .genericChannel),
   ("FLP_Reverb", some .genericChannel),
   ("FLP_IntStretch", some .genericChannel),
   ("FLP_SSNote", some .genericChannel),
   ("FLP_Delay", some .genericChannel),
   ("FLP_ChanParams", some .genericChannel)]

/-- Third quarter of the `handlerLUT` dict (remaining per-channel and
per-pattern entries, flp_read.py lines 443-466). -/
def handlerLUT3 : List (String × Option HTag) :=
  [("ChannelName", some .channelName),
   ("ChannelEnvelopeParams", some .genericChannelAppend),
   ("ChannelParams", some .genericChannel),
   ("ChannelFilterGroup", some .genericChannel),
   ("UNKNOWN_32", some .genericChannel),
   ("UNKNOWN_97", some .genericChannel),
   ("UNKNOWN_143", some .genericChannel),
   ("UNKNOWN_144", some .genericChannel),
   ("UNKNOWN_221", some .genericChannel),
   ("UNKNOWN_229", some .genericChannel),
   ("UNKNOWN_228", some .genericChannelAppend),
   ("UNKNOWN_234", some .genericChannel),
   ("UNKNOWN_150", some .genericChannel),
   ("UNKNOWN_157", some .genericChannel),
   ("UNKNOWN_158", some .genericChannel),
   ("UNKNOWN_164", some .genericChannel),
   ("UNKNOWN_142", some .genericChannel),
   ("FLP_NewPat", some .newPattern),
   ("FLP_Text_PatName", some .patternName),
   ("PatternAutomationData", some .genericPattern),
   ("PatternData", some .genericPattern)]

/-- Last quarter of the `handlerLUT` dict (context-aware, mixer,
arrangement and track entries, flp_read.py lines 467-493). -/
def handlerLUT4 : List (String × Option HTag) :=
  [("FLP_Color", some .genericChannelOrMixerEffect),
   ("FLP_Text_PluginName", some .genericChannelOrMixerEffect),
   ("FLP_NewPlugin", some .genericChannelOrMixerEffect),
   ("FLP_PluginParams", some .genericChannelOrMixerEffect),
   ("UNKNOWN_155", some .genericChannelOrMixerEffect),
   ("MixerTrackInfo", some .newMixerTrack),
   ("InsertAudioOutputTarget", some .genericMixerTrack),
   ("InsertAudioInputSource", some .genericMixerTrack),
   ("InsertName", some .mixerTrackName),
   ("MixerTrackRouting", some .genericMixerTrack),
   ("MixerTrackColor", some .genericMixerTrack),
   ("MixerTrackIcon", some .genericMixerTrack),
   ("SlotIndex", some .setCtxSlotIndex),
   ("ArrangementIndex", some .newArrangement),
   ("ArrangementName", some .arrangementName),
   ("PlaylistData", some .parsePlaylistData),
   ("UNKNOWN_36", some .genericArrangement),
   ("TrackInfo", some .newArrangementTrack),
   ("TrackName", some .arrangementTrackName),
   ("AutomationClipData", none),
   ("ChannelFilterGroupName", some .newChannelFilterGroup)]

/-- The `handlerLUT` dict of `_handle_flp_event` (flp_read.py, lines
384-494), in source order; `AutomationClipData` maps to `None`.  (The
table is split in four only to keep elaboration fast; the concatenation
preserves the source order of the entries.) -/
def handlerLUT : List (String × Option HTag) :=
  handlerLUT1 ++ handlerLUT2 ++ handlerLUT3 ++ handlerLUT4

/-- Dispatch a handler tag to its implementation. -/
def applyHandler (tag : HTag) (ctx : ParserContext) (eventName : String)
    (contents : PValue) : Except String ParserContext :=
  match tag with
  | .genericProject => hGenericProject ctx eventName contents
  | .genericChannel => hGenericChannel ctx eventName contents
  | .genericChannelAppend => hGenericChannelAppend ctx eventName contents
  | .genericArrangement => hGenericArrangement ctx eventName contents
  | .genericPattern => hGenericPattern ctx eventName contents
  | .genericMixerTrack => hGenericMixerTrack ctx eventName contents
  | .genericChannelOrMixerEffect => hChannelOrMixerEffect ctx eventName contents
  | .patternName => hPatternName ctx contents
  | .channelName => hChannelName ctx contents
  | .arrangementName => hArrangementName ctx contents
  | .arrangementTrackName => hArrangementTrackName ctx contents
  | .mixerTrackName => hMixerTrackName ctx contents
  | .newChannel => hNewChannel ctx contents
  | .newPattern => hNewPattern ctx contents
  | .newArrangement => hNewArrangement ctx contents
  | .newMixerTrack => hNewMixerTrack ctx eventName contents
  | .newArrangementTrack => hNewArrangementTrack ctx eventName contents
  | .newChannelFilterGroup => hNewChannelFilterGroup ctx contents
  | .parsePlaylistData => hParsePlaylistData ctx contents
  | .setCtxSlotIndex => hSetCtxSlotIndex ctx contents

/-- Embedding of `_handle_flp_event` (flp_read.py, lines 277-501):
numeric payloads (ID < 192) are converted with `btoi`; event names
missing from the handler table are reported as a warning (a stderr
print, not modelled) and leave the state unchanged; a `None` handler
(`AutomationClipData`) is skipped. -/
def _handle_flp_event (ctx : ParserContext) (eventId : Nat) (bs : List Nat) :
    Except String ParserContext :=
  let eventName := eid_to_ename eventId
  let contents : PValue := if eventId < 192 then .int (btoi bs) else .bytes bs
  match alookup handlerLUT eventName with
  | none => .ok ctx
  | some none => .ok ctx
  | some (some tag) => applyHandler tag ctx eventName contents

/-- Embedding of `_event_size` (flp_read.py, lines 72-81): payload width
by ID class; TEXT sizes consume a varint from the stream. -/
def _event_size (eventId : Nat) (f : List Nat) : Nat × List Nat :=
  if eventId < 64 then (1, f)
  else if eventId < 128 then (2, f)
  else if eventId < 192 then (4, f)
  else _read_TEXT_event_size f

theorem readTEXTLoop_snd_length_le (bs : List Nat) : ∀ shift acc,
    ((readTEXTLoop bs shift acc).2).length ≤ bs.length := by
  induction bs with
  | nil => intro shift acc; simp [readTEXTLoop]
  | cons b rest ih =>
    intro shift acc
    simp only [readTEXTLoop]
    by_cases hb : b &&& 128 == 128
    · simp only [hb, if_pos rfl, ite_true]
      exact le_trans (ih _ _) (by simp)
    · simp [hb]

theorem event_size_snd_length_le (eventId : Nat) (f : List Nat) :
    ((_event_size eventId f).2).length ≤ f.length := by
  unfold _event_size
  split
  · simp
  · split
    · simp
    · split
      · simp
      · exact readTEXTLoop_snd_length_le f 0 0

/-- The event loop of `load_FLP` (flp_read.py, lines 538-543): while
bytes remain, read one event ID byte, frame its payload (a short read
past the end of the chunk silently yields only the available bytes,
exactly as Python `f.read` does), and dispatch. -/
def eventLoop : ParserContext → List Nat → Except String Project
  | ctx, [] => .ok ctx.project
  | ctx, eventId :: r =>
    let sized := _event_size eventId r
    let contents := sized.2.take sized.1
    let r' := sized.2.drop sized.1
    match _handle_flp_event ctx eventId contents with
    | .error e => .error e
    | .ok ctx' => eventLoop ctx' r'
termination_by _ rest => rest.length
decreasing_by
  have h1 := event_size_snd_length_le eventId r
  simp only [List.length_drop, List.length_cons]
  omega

/-- ASCII bytes of the `FLhd` chunk ID. -/
def HEADERCHUNKID : List Nat := [0x46, 0x4C, 0x68, 0x64]

/-- ASCII bytes of the `FLdt` chunk ID. -/
def DATACHUNKID : List Nat := [0x46, 0x4C, 0x64, 0x74]

/-- Embedding of `load_FLP` (flp_read.py, lines 504-545) on the byte
contents of the file.  The `error` helper prefixes messages with
"Error: "; warnings (header format, unknown events) do not affect the
result.  The up-front length check compares the declared data length
with the bytes actually remaining after the header. -/
def load_FLP (file : List Nat) : Except String Project :=
  let headerChunkID := file.take 4
  let r1 := file.drop 4
  if headerChunkID ≠ HEADERCHUNKID then .error "Error: not an FLP file"
  else
    let headerLength := btoi (r1.take 4)
    let r2 := r1.drop 4
    if headerLength ≠ 6 then .error "Error: invalid header length"
    else
      let r3 := ((r2.drop 2).drop 2).drop 2
      let dataChunkId := r3.take 4
      let r4 := r3.drop 4
      if dataChunkId ≠ DATACHUNKID then .error "Error: incorrect data chunk ID"
      else
        let dataLength := btoi (r4.take 4)
        let r5 := r4.drop 4
        if dataLength ≠ r5.length then
          .error "Error: file truncation error (DATA length incorrect)"
        else eventLoop {} r5

/-- The 18 valid header bytes before the 4 data-length bytes: `FLhd`,
header length 6, format 0, 4 channels, beat division 96, `FLdt`. -/
def c8Prefix : List Nat :=
  [0x46, 0x4C, 0x68, 0x64, 6, 0, 0, 0, 0, 0, 4, 0, 96, 0,
   0x46, 0x4C, 0x64, 0x74]

/-- A well-formed file whose single event (ID 28, a BYTE event with a
declared 1-byte payload) sits at the very end of the data chunk, so its
payload lies entirely beyond the end of the chunk. -/
def c8File : List Nat := c8Prefix ++ [1, 0, 0, 0] ++ [28]

/-- The project `load_FLP` builds from `c8File`: the truncated payload
is read as the empty byte string, whose `btoi` is 0. -/
def c8Project : Project := { projectInfo := [("UNKNOWN_28", PValue.int 0)] }

/-- The parser context after handling that single truncated event. -/
def c8Ctx1 : ParserContext := { project := c8Project }

/-- C8 (amended): `load_FLP` raises a structural error when the declared
data-chunk length mismatches the bytes actually remaining after the
header; but an event whose declared payload extends beyond the end of
the chunk is NOT an error: the read is silently truncated to the
available bytes and the parse completes normally. -/
theorem C8_short_read (b0 b1 b2 b3 : Nat) (rest : List Nat)
    (h : btoi [b0, b1, b2, b3] ≠ rest.length) :
    load_FLP (c8Prefix ++ [b0, b1, b2, b3] ++ rest) =
        .error "Error: file truncation error (DATA length incorrect)" ∧
      load_FLP c8File = .ok c8Project := by
  constructor
  · have h1 : load_FLP (c8Prefix ++ [b0, b1, b2, b3] ++ rest) =
        (if btoi [b0, b1, b2, b3] ≠ rest.length then
          .error "Error: file truncation error (DATA length incorrect)"
        else eventLoop {} rest) := rfl
    rw [h1, if_pos h]
  · have h1 : load_FLP c8File = eventLoop {} [28] := rfl
    rw [h1, eventLoop]
    have h2 : _handle_flp_event {} 28
        (List.take (_event_size 28 []).1 (_event_size 28 []).2) = .ok c8Ctx1 := rfl
    rw [h2]
    show eventLoop c8Ctx1 [] = _
    rw [eventLoop]
    rfl

/-- Witness for `C8_short_read`: a file declaring 5 data bytes with none
present is rejected, while `c8File` (whose last event has a truncated
payload) parses successfully. -/
theorem C8_short_read_witness :
    load_FLP (c8Prefix ++ [5, 0, 0, 0] ++ []) =
        .error "Error: file truncation error (DATA length incorrect)" ∧
      load_FLP c8File = .ok c8Project :=
  C8_short_read 5 0 0 0 [] (by decide)

/-- C8 (counterexample): parsing `c8File`, whose single event declares
a 1-byte payload with 0 bytes remaining in the data chunk, completes
normally and returns a project, instead of raising a fatal structural
error. -/
theorem C8_counterexample : load_FLP c8File = .ok c8Project := by
  have h1 : load_FLP c8File = eventLoop {} [28] := rfl
  rw [h1, eventLoop]
  have h2 : _handle_flp_event {} 28
      (List.take (_event_size 28 []).1 (_event_size 28 []).2) = .ok c8Ctx1 := rfl
  rw [h2]
  show eventLoop c8Ctx1 [] = _
  rw [eventLoop]
  rfl

/-- C9 (amended): `FLP_NewChan` (event 64) always sets `currentChannel`
to the payload and clears `isMixerEffect`, but appends a new `Channel`
only when the payload is at least the current length of
`project.channels`; `FLP_NewPat` (event 65) always sets
`currentPattern` to payload - 1, and appends a new `Pattern` only when
payload - 1 is at least the current length of `project.patterns`. -/
theorem C9_constructors (ctx : ParserContext) (bs : List Nat) :
    _handle_flp_event ctx 64 bs =
        .ok { ctx with
          currentChannel := (btoi bs : Int)
          isMixerEffect := false
          project := { ctx.project with channels :=
            if (btoi bs : Int) ≥ (ctx.project.channels.length : Int) then
              ctx.project.channels ++ [{}]
            else ctx.project.channels } } ∧
      _handle_flp_event ctx 65 bs =
        .ok { ctx with
          currentPattern := (btoi bs : Int) - 1
          project := { ctx.project with patterns :=
            if (btoi bs : Int) - 1 ≥ (ctx.project.patterns.length : Int) then
              ctx.project.patterns ++ [{}]
            else ctx.project.patterns } } := by
  exact ⟨rfl, rfl⟩

/-- A parser context that already owns one channel. -/
def c9Ctx : ParserContext :=
  { currentChannel := 5, isMixerEffect := true,
    project := { channels := [{}] } }

/-- The context `c9Ctx` after the `FLP_NewChan 0` event: pointers are
updated but no channel is appended. -/
def c9CtxAfter : ParserContext :=
  { c9Ctx with currentChannel := 0, isMixerEffect := false }

/-- C9 (counterexample): an `FLP_NewChan` event with payload 0 arriving
in a state that already has one channel does NOT append a new `Channel`
(the handler appends only when the payload reaches the list length), so
the channel list keeps length 1, refuting that every constructor event
appends a new entity regardless of the prior state. -/
theorem C9_counterexample :
    _handle_flp_event c9Ctx 64 [0, 0] = .ok c9CtxAfter ∧
      c9CtxAfter.project.channels.length = c9Ctx.project.channels.length := by
  exact ⟨rfl, rfl⟩

/-! ## Arrangement diff and merge (flp_diff.py, fl_helpers.py) -/

/-- Embedding of `normalise_clip_start` (fl_helpers.py, lines 23-26):
the sentinel 3212836864 written for never-shifted items is mapped to 0
for comparison purposes. -/
def normalise_clip_start (s : Int) : Int :=
  if s ≠ 3212836864 then s else 0

/-- A playlist item as the diff/merge layer sees it: a dict carrying
the keys `type`, `clipIndex`, `start`, `track`, `length`, `clipStart`,
`clipEnd`, `muted` and `selected` (flp_diff.py accesses items by
subscripting these keys). -/
structure DiffItem where
  type : String
  clipIndex : Int
  start : Int
  track : Int
  length : Int
  clipStart : Int
  clipEnd : Int
  muted : Bool
  selected : Bool
deriving DecidableEq

/-- The record type that the field annotations of `ArrangementChange`
(flp_diff.py, lines 15-18) declare.  The source class has bare
annotations and NO dataclass decorator, so in CPython every keyword
construction `ArrangementChange(state=..., ...)` raises TypeError; such
constructions are modelled by `mkArrangementChange`, which always
fails, and this record type only gives the would-be values a type. -/
structure ArrangementChange where
  state : String
  index : Option Int := none
  data : Option DiffItem := none
deriving DecidableEq

/-- The `ArrangementChange(state=..., index=..., data=...)` keyword
construction used at flp_diff.py lines 81-87, 89-93 and 99: because the
class lacks a dataclass decorator (it defines no `__init__`), the call
raises `TypeError: ArrangementChange() takes no arguments` in CPython,
after its argument expressions have been evaluated. -/
def mkArrangementChange (_state : String) (_index : Option Int)
    (_data : Option DiffItem) : Except String ArrangementChange :=
  .error "TypeError: ArrangementChange() takes no arguments"

/-- The diff key `(item["type"], item["clipIndex"], item["start"])`
(flp_diff.py, lines 47 and 54). -/
def dkey (it : DiffItem) : String × Int × Int :=
  (it.type, it.clipIndex, it.start)

/-- The `items2Dict` multimap from keys to the arr2 items carrying
them, in insertion order. -/
abbrev Items2Dict := List ((String × Int × Int) × List DiffItem)

/-- Dict lookup; `none` means the key is absent (`key in items2Dict`
is false). -/
def dictFind : Items2Dict → (String × Int × Int) → Option (List DiffItem)
  | [], _ => none
  | (k', v) :: rest, k => if k' = k then some v else dictFind rest k

/-- `items2Dict[key].append(item)` on a `defaultdict(list)`: appends to
the existing entry, or creates the key at the end of the dict. -/
def dictAppend : Items2Dict → (String × Int × Int) → DiffItem → Items2Dict
  | [], k, it => [(k, [it])]
  | (k', v) :: rest, k, it =>
    if k' = k then (k', v ++ [it]) :: rest else (k', v) :: dictAppend rest k it

/-- Replace the value list stored at an existing key (used to model the
in-place `del items2Dict[key][matchI]`). -/
def dictSet : Items2Dict → (String × Int × Int) → List DiffItem → Items2Dict
  | [], _, _ => []
  | (k', v') :: rest, k, v =>
    if k' = k then (k', v) :: rest else (k', v') :: dictSet rest k v

/-- Building `items2Dict` from arr2 (flp_diff.py, lines 43-48). -/
def buildItems2Dict (items : List DiffItem) : Items2Dict :=
  items.foldl (fun d it => dictAppend d (dkey it) it) []

/-- Python `min` over the list of track distances.  It is only applied
to lists of length greater than 1; the empty case (a ValueError in
Python) is given the value 0. -/
def pyMin : List Nat → Nat
  | [] => 0
  | x :: xs => xs.foldl Nat.min x

/-- Python `list.index`: the first position of a value.  (The value is
always present where the differ calls it, since it is the minimum of
the same list.) -/
def pyListIndex (xs : List Nat) (v : Nat) : Nat :=
  xs.indexOf v

/-- The state argument of the change `diff_arrangement` builds for a
matched pair (flp_diff.py, lines 68-87): `some` of the expression
`"modified" if isModified else "moved"` (line 83) when a change would
be appended, `none` when the pair is equal on every compared attribute.
CPython evaluates this argument expression before the
`ArrangementChange(...)` call itself crashes. -/
def pairChangeState (item m : DiffItem) : Option String :=
  let clipStartA := normalise_clip_start item.clipStart
  let clipStartB := normalise_clip_start m.clipStart
  let hasMoved := item.track != m.track
  let isModified := (item.length != m.length) || (clipStartA != clipStartB) ||
    (item.muted != m.muted)
  if isModified || hasMoved then
    some (if isModified then "modified" else "moved")
  else none

/-- The matched-pair step of `diff_arrangement` (flp_diff.py, lines
68-87): when the pair differs, the change is constructed with
`ArrangementChange(state=..., index=i, data=match)` - which raises
(see `mkArrangementChange`); when the pair is equal nothing is
appended. -/
def classify_pair (i : Nat) (item m : DiffItem) :
    Except String (Option ArrangementChange) :=
  match pairChangeState item m with
  | none => .ok none
  | some st =>
    match mkArrangementChange st (some (i : Int)) (some m) with
    | .error e => .error e
    | .ok c => .ok (some c)

/-- The main loop of `diff_arrangement` (flp_diff.py, lines 52-94):
process arr1 items in order; match each against the remaining arr2
items of its key (the closest in track distance when there are
several), remove the match from the dict, and record the change. -/
def diffLoop : List DiffItem → Nat → Items2Dict → List ArrangementChange →
    Except String (Items2Dict × List ArrangementChange)
  | [], _, d, changes => .ok (d, changes)
  | item :: rest, i, d, changes =>
    match dictFind d (dkey item) with
    | some ms =>
      let dists := ms.map (fun i2 => (item.track - i2.track).natAbs)
      let matchI := if ms.length > 1 then pyListIndex dists (pyMin dists) else 0
      match ms[matchI]? with
      | none => .error "IndexError: list index out of range"
      | some m =>
        let d' := dictSet d (dkey item) (ms.eraseIdx matchI)
        match classify_pair i item m with
        | .error e => .error e
        | .ok none => diffLoop rest (i + 1) d' changes
        | .ok (some c) => diffLoop rest (i + 1) d' (changes ++ [c])
    | none =>
      match mkArrangementChange "deleted" (some (i : Int)) none with
      | .error e => .error e
      | .ok c => diffLoop rest (i + 1) d (changes ++ [c])

/-- The inner loop of the trailing `added` pass: each remaining item is
turned into a change with `ArrangementChange(state="added", data=item)`
- which raises (see `mkArrangementChange`). -/
def addedChangesLoop : List DiffItem → List ArrangementChange →
    Except String (List ArrangementChange)
  | [], changes => .ok changes
  | it :: rest, changes =>
    match mkArrangementChange "added" none (some it) with
    | .error e => .error e
    | .ok c => addedChangesLoop rest (changes ++ [c])

/-- The trailing loop of `diff_arrangement` (flp_diff.py, lines 97-99):
every item still in the dict becomes an `added` change. -/
def addedChanges : Items2Dict → List ArrangementChange →
    Except String (List ArrangementChange)
  | [], changes => .ok changes
  | (_, items) :: rest, changes =>
    match addedChangesLoop items changes with
    | .error e => .error e
    | .ok cs => addedChanges rest cs

/-- Embedding of `diff_arrangement` (flp_diff.py, lines 21-101) on the
item lists of the two arrangements. -/
def diff_arrangement (arr1 arr2 : List DiffItem) :
    Except String (List ArrangementChange) :=
  match diffLoop arr1 0 (buildItems2Dict arr2) [] with
  | .error e => .error e
  | .ok (d, changes) => addedChanges d changes

/-- The per-attribute merge of `twoModify` (flp_diff.py, lines 258-273)
as a value-level function.  The source computes `aChanged = a == orig`
and `bChanged = b == orig` - the sense of the names is inverted (its
branch comments say the opposite) - so with `a != b`, when `b == orig`
(only A actually changed) A's attribute is overwritten with `b`,
reverting the change; in every other case `a` is kept.  The branch for
`aChanged and bChanged` returns early without modifying anything and is
unreachable given `a != b`. -/
def handleClipAttrib {α : Type} [DecidableEq α] (orig a b : α) : α :=
  if a = b then a
  else if a = orig ∧ b = orig then a
  else if b = orig then b
  else a

/-- The `twoModify` loop (flp_diff.py, lines 275-276): fold
`handleClipAttrib` over the seven clip attributes, mutating
`changeA.data` (each attribute is touched once, so the loop equals this
simultaneous record update). -/
def twoModifyMerge (orig a b : DiffItem) : DiffItem :=
  { a with
    start := handleClipAttrib orig.start a.start b.start
    length := handleClipAttrib orig.length a.length b.length
    track := handleClipAttrib orig.track a.track b.track
    clipStart := handleClipAttrib orig.clipStart a.clipStart b.clipStart
    clipEnd := handleClipAttrib orig.clipEnd a.clipEnd b.clipEnd
    muted := handleClipAttrib orig.muted a.muted b.muted
    selected := handleClipAttrib orig.selected a.selected b.selected }

/-- The conflict action table of `resolve_conflict_default`
(flp_diff.py, lines 186-211); `none` is a KeyError on an unknown
state. -/
def actionTable (sA sB : String) : Option String :=
  if sA = "added" then
    if sB = "added" then some "maybeAddBoth"
    else if sB = "deleted" then some "error"
    else if sB = "modified" then some "error"
    else if sB = "moved" then some "error"
    else none
  else if sA = "deleted" then
    if sB = "added" then some "error"
    else if sB = "deleted" then some "delete"
    else if sB = "modified" then some "delete"
    else if sB = "moved" then some "delete"
    else none
  else if sA = "modified" then
    if sB = "added" then some "error"
    else if sB = "deleted" then some "delete"
    else if sB = "modified" then some "twoModify"
    else if sB = "moved" then some "maybeMoveAndModify"
    else none
  else if sA = "moved" then
    if sB = "added" then some "error"
    else if sB = "deleted" then some "delete"
    else if sB = "modified" then some "maybeMoveAndModify"
    else if sB = "moved" then some "A"
    else none
  else none

/-- Embedding of `resolve_conflict_default` (flp_diff.py, lines
180-277) on the item list of the original arrangement.  The
`maybeMoveAndModify` branch subscripts the `ArrangementChange` objects
themselves (`theMove["data"]`, `theModify["index"]`), which raises
TypeError in the source; a missing `data`/`index` payload where the
source would subscript `None` likewise surfaces as a TypeError. -/
def resolve_conflict_default (arrangement : List DiffItem)
    (changeA changeB : ArrangementChange) : Except String (List DiffItem) :=
  match actionTable changeA.state changeB.state with
  | none => .error "KeyError"
  | some action =>
    if action = "error" then .error "invalid item change comparison"
    else if action = "delete" then .ok []
    else if action = "maybeAddBoth" then
      match changeA.data, changeB.data with
      | some itemA, some itemB =>
        let clipsIdentical := (itemA.length == itemB.length) &&
          (normalise_clip_start itemA.clipStart ==
            normalise_clip_start itemB.clipStart)
        if clipsIdentical then .ok [itemA] else .ok [itemA, itemB]
      | _, _ => .error "TypeError"
    else if action = "A" then
      match changeA.data with
      | some d => .ok [d]
      | none => .error "TypeError"
    else if action = "maybeMoveAndModify" then
      .error "TypeError: ArrangementChange object is not subscriptable"
    else if action = "twoModify" then
      match changeA.index with
      | none => .error "TypeError"
      | some i =>
        match pyGet arrangement i with
        | .error e => .error e
        | .ok theOriginal =>
          match changeA.data, changeB.data with
          | some dA, some dB => .ok [twoModifyMerge theOriginal dA dB]
          | _, _ => .error "TypeError"
    else .error "KeyError"

/-- The original item for the C4 scenario. -/
def c4Orig : DiffItem :=
  { type := "pattern", clipIndex := 0, start := 0, track := 3, length := 64,
    clipStart := 0, clipEnd := 64, muted := false, selected := false }

/-- Side A modified only the length (64 to 128). -/
def c4ItemA : DiffItem := { c4Orig with length := 128 }

/-- Side A's change descriptor. -/
def c4ChangeA : ArrangementChange :=
  { state := "modified", index := some 0, data := some c4ItemA }

/-- Side B also reports the item modified, but with every merged
attribute still equal to the original. -/
def c4ChangeB : ArrangementChange :=
  { state := "modified", index := some 0, data := some c4Orig }

/-- C4: in the `twoModify` action, when only side A changed an
attribute (B's value equals the original), the merged item carries the
ORIGINAL value, not A's: merging A = {length 128} with B = original
yields the original item back (length 64), because `handleClipAttrib`
computes its changed-flags inverted (`aChanged = a == orig`),
contradicting the claim (and the source's own branch comments). -/
theorem C4_twoModify_reverts :
    resolve_conflict_default [c4Orig] c4ChangeA c4ChangeB = .ok [c4Orig] ∧
      c4ItemA.length = 128 ∧ c4Orig.length = 64 ∧ c4ItemA ≠ c4Orig := by
  refine ⟨rfl, rfl, rfl, by decide⟩

/-- Characterization of the state argument computed for a matched
pair: "modified" outranks "moved". -/
theorem pairChangeState_spec (item m : DiffItem) :
    ((item.length ≠ m.length ∨
        normalise_clip_start item.clipStart ≠ normalise_clip_start m.clipStart ∨
        item.muted ≠ m.muted) →
      pairChangeState item m = some "modified") ∧
    (pairChangeState item m = some "moved" ↔
      (item.length = m.length ∧
        normalise_clip_start item.clipStart = normalise_clip_start m.clipStart ∧
        item.muted = m.muted ∧ item.track ≠ m.track)) := by
  by_cases h1 : item.length = m.length <;>
    by_cases h2 : normalise_clip_start item.clipStart = normalise_clip_start m.clipStart <;>
    by_cases h3 : item.muted = m.muted <;>
    by_cases h4 : item.track = m.track <;>
    simp [pairChangeState, h1, h2, h3, h4]

/-- The C6 item pair: same key, track 3 to 7 and length 64 to 128 (spec
scenario 5). -/
def c6ItemA : DiffItem :=
  { type := "pattern", clipIndex := 0, start := 0, track := 3, length := 64,
    clipStart := 0, clipEnd := 64, muted := false, selected := false }

/-- The modified-and-moved counterpart of `c6ItemA`. -/
def c6ItemB : DiffItem := { c6ItemA with track := 7, length := 128 }

/-- C6: the state argument the differ computes for a matched pair is
exactly as the claim describes - "modified" whenever length, normalized
clipStart or muted differ, even when the track also differs, and
"moved" precisely when only the track differs - but no such change is
ever emitted: whenever a change would be appended, the
`ArrangementChange(...)` keyword construction raises TypeError (the
class has no dataclass decorator), so `diff_arrangement` crashes on
every matched pair that differs; in particular spec scenario 5 (track 3
to 7, length 64 to 128) raises instead of yielding one modified
change. -/
theorem C6_state_computed_but_emission_crashes (item m : DiffItem) :
    ((item.length ≠ m.length ∨
        normalise_clip_start item.clipStart ≠ normalise_clip_start m.clipStart ∨
        item.muted ≠ m.muted) →
      pairChangeState item m = some "modified") ∧
    (pairChangeState item m = some "moved" ↔
      (item.length = m.length ∧
        normalise_clip_start item.clipStart = normalise_clip_start m.clipStart ∧
        item.muted = m.muted ∧ item.track ≠ m.track)) ∧
    (∀ (i : Nat) (st : String), pairChangeState item m = some st →
      classify_pair i item m =
        .error "TypeError: ArrangementChange() takes no arguments") ∧
    diff_arrangement [c6ItemA] [c6ItemB] =
      .error "TypeError: ArrangementChange() takes no arguments" := by
  refine ⟨(pairChangeState_spec item m).1, (pairChangeState_spec item m).2, ?_, rfl⟩
  intro i st h
  simp [classify_pair, h, mkArrangementChange]

/-- Witness for `C6_state_computed_but_emission_crashes` at the
scenario-5 pair: the state argument is "modified", and building the
change raises TypeError. -/
theorem C6_witness :
    pairChangeState c6ItemA c6ItemB = some "modified" ∧
      classify_pair 0 c6ItemA c6ItemB =
        .error "TypeError: ArrangementChange() takes no arguments" := by
  have h := C6_state_computed_but_emission_crashes c6ItemA c6ItemB
  have h1 := h.1 (Or.inl (by decide))
  exact ⟨h1, h.2.2.1 0 "modified" h1⟩

/-! ### diff(X, X) = []: the self-diff invariant -/

/-- The items of `L` whose key is `k`, in order. -/
def filterKey (L : List DiffItem) (k : String × Int × Int) : List DiffItem :=
  L.filter (fun it => dkey it == k)

/-- The invariant linking the mutable `items2Dict` to the unprocessed
suffix `L` of the self-diffed arrangement: keys are unique, and each
key holds exactly the items of `L` carrying it. -/
def DInv (d : Items2Dict) (L : List DiffItem) : Prop :=
  (d.map Prod.fst).Nodup ∧
  ∀ k, dictFind d k = some (filterKey L k) ∨
    (dictFind d k = none ∧ filterKey L k = [])

theorem dictFind_eq_none (d : Items2Dict) (k : String × Int × Int) :
    dictFind d k = none ↔ k ∉ d.map Prod.fst := by
  induction d with
  | nil => simp [dictFind]
  | cons e rest ih =>
    obtain ⟨k0, v0⟩ := e
    by_cases h : k0 = k
    · subst h
      simp [dictFind]
    · simp [dictFind, h, ih, Ne.symm h]

theorem dictFind_dictAppend (d : Items2Dict) (k : String × Int × Int)
    (it : DiffItem) (k' : String × Int × Int) :
    dictFind (dictAppend d k it) k' =
      if k' = k then some ((dictFind d k).getD [] ++ [it])
      else dictFind d k' := by
  induction d with
  | nil =>
    by_cases h : k' = k
    · subst h; simp [dictAppend, dictFind]
    · simp [dictAppend, dictFind, h, Ne.symm h]
  | cons e rest ih =>
    obtain ⟨k0, v0⟩ := e
    by_cases h0 : k0 = k
    · subst h0
      by_cases h1 : k' = k0
      · subst h1; simp [dictAppend, dictFind]
      · simp [dictAppend, dictFind, h1, Ne.symm h1]
    · by_cases h1 : k' = k0
      · subst h1
        simp [dictAppend, dictFind, h0, Ne.symm h0]
      · simp [dictAppend, dictFind, h0, h1, Ne.symm h1, ih]

theorem keys_dictAppend (d : Items2Dict) (k : String × Int × Int)
    (it : DiffItem) :
    (dictAppend d k it).map Prod.fst =
      if k ∈ d.map Prod.fst then d.map Prod.fst
      else d.map Prod.fst ++ [k] := by
  induction d with
  | nil => simp [dictAppend]
  | cons e rest ih =>
    obtain ⟨k0, v0⟩ := e
    by_cases h : k0 = k
    · subst h
      simp [dictAppend]
    · by_cases hm : k ∈ rest.map Prod.fst <;>
        simp [dictAppend, h, Ne.symm h, hm, ih]

theorem nodup_keys_dictAppend {d : Items2Dict} (k : String × Int × Int)
    (it : DiffItem) (h : (d.map Prod.fst).Nodup) :
    ((dictAppend d k it).map Prod.fst).Nodup := by
  rw [keys_dictAppend]
  by_cases hm : k ∈ d.map Prod.fst
  · simpa [hm] using h
  · simp [hm, List.nodup_append, h]

theorem keys_dictSet (d : Items2Dict) (k : String × Int × Int)
    (v : List DiffItem) :
    (dictSet d k v).map Prod.fst = d.map Prod.fst := by
  induction d with
  | nil => rfl
  | cons e rest ih =>
    obtain ⟨k0, v0⟩ := e
    by_cases h : k0 = k <;> simp [dictSet, h, ih]

theorem dictFind_dictSet (d : Items2Dict) (k : String × Int × Int)
    (v : List DiffItem) (k' : String × Int × Int) :
    dictFind (dictSet d k v) k' =
      if k' = k ∧ (dictFind d k).isSome then some v
      else dictFind d k' := by
  induction d with
  | nil => simp [dictSet, dictFind]
  | cons e rest ih =>
    obtain ⟨k0, v0⟩ := e
    by_cases h0 : k0 = k
    · subst h0
      by_cases h1 : k' = k0
      · subst h1; simp [dictSet, dictFind]
      · simp [dictSet, dictFind, h1, Ne.symm h1]
    · by_cases h1 : k' = k0
      · subst h1
        simp [dictSet, dictFind, h0, Ne.symm h0]
      · simp [dictSet, dictFind, h0, h1, Ne.symm h1, ih]

theorem filterKey_nil (k : String × Int × Int) : filterKey [] k = [] := rfl

theorem filterKey_cons (it : DiffItem) (L : List DiffItem)
    (k : String × Int × Int) :
    filterKey (it :: L) k =
      if dkey it = k then it :: filterKey L k else filterKey L k := by
  by_cases h : dkey it = k <;> simp [filterKey, List.filter_cons, h]

theorem filterKey_append (L M : List DiffItem) (k : String × Int × Int) :
    filterKey (L ++ M) k = filterKey L k ++ filterKey M k := by
  simp [filterKey, List.filter_append]

theorem DInv_dictAppend {d : Items2Dict} {L : List DiffItem}
    (it : DiffItem) (h : DInv d L) :
    DInv (dictAppend d (dkey it) it) (L ++ [it]) := by
  obtain ⟨hnd, hfind⟩ := h
  refine ⟨nodup_keys_dictAppend _ _ hnd, ?_⟩
  intro k
  rw [dictFind_dictAppend, filterKey_append]
  by_cases hk : k = dkey it
  · left
    rw [if_pos hk]
    have hfk : filterKey [it] k = [it] := by
      rw [filterKey_cons, if_pos hk.symm, filterKey_nil]
    rw [hfk, ← hk]
    rcases hfind k with h1 | ⟨h1, h2⟩
    · rw [h1]
      simp
    · rw [h1, h2]
      simp
  · rw [if_neg hk]
    have hfk : filterKey [it] k = [] := by
      rw [filterKey_cons, if_neg (Ne.symm hk), filterKey_nil]
    rw [hfk, List.append_nil]
    exact hfind k

theorem DInv_buildLoop (X : List DiffItem) : ∀ (d : Items2Dict)
    (L : List DiffItem), DInv d L →
    DInv (X.foldl (fun d it => dictAppend d (dkey it) it) d) (L ++ X) := by
  induction X with
  | nil => intro d L h; simpa using h
  | cons it rest ih =>
    intro d L h
    have h2 := ih _ _ (DInv_dictAppend it h)
    simpa using h2

theorem DInv_buildItems2Dict (X : List DiffItem) :
    DInv (buildItems2Dict X) X := by
  have h0 : DInv ([] : Items2Dict) [] := by
    exact ⟨by simp, by intro k; right; exact ⟨rfl, rfl⟩⟩
  have := DInv_buildLoop X [] [] h0
  simpa [buildItems2Dict] using this

theorem foldl_min_zero (xs : List Nat) : xs.foldl Nat.min 0 = 0 := by
  induction xs with
  | nil => rfl
  | cons x xs ih => simpa [List.foldl, Nat.zero_min] using ih

theorem pyMin_zero_cons (xs : List Nat) : pyMin (0 :: xs) = 0 :=
  foldl_min_zero xs

theorem pyListIndex_zero_cons (xs : List Nat) : pyListIndex (0 :: xs) 0 = 0 := by
  simp [pyListIndex]

/-- Comparing an item against itself computes no change state. -/
theorem pairChangeState_self (item : DiffItem) :
    pairChangeState item item = none := by
  simp [pairChangeState]

/-- Comparing an item against itself appends nothing (in particular the
crashing change constructor is not reached). -/
theorem classify_pair_self (i : Nat) (item : DiffItem) :
    classify_pair i item item = .ok none := by
  simp [classify_pair, pairChangeState_self]

/-- One step of the self-diff loop: the head item is matched against
itself (it is the first element of its key list, at track distance 0),
removed from the dict, and produces no change. -/
theorem diffLoop_cons_self (item : DiffItem) (rest : List DiffItem) (i : Nat)
    (d : Items2Dict) (cs : List ArrangementChange) (t : List DiffItem)
    (hfind : dictFind d (dkey item) = some (item :: t)) :
    diffLoop (item :: rest) i d cs =
      diffLoop rest (i + 1) (dictSet d (dkey item) t) cs := by
  have hf0 : (item.track - item.track).natAbs = 0 := by simp
  simp only [diffLoop, hfind]
  by_cases ht : t = []
  · subst ht
    simp [classify_pair_self]
  · have hlen : 1 < (item :: t).length := by
      cases t with
      | nil => exact absurd rfl ht
      | cons a b => simp
    simp only [List.map_cons, hf0, hlen, if_pos, pyMin_zero_cons,
      pyListIndex_zero_cons, gt_iff_lt, ite_true]
    simp [classify_pair_self]

/-- Running the self-diff loop from a coherent dict state consumes the
suffix, produces no changes, and leaves every key list empty. -/
theorem diffLoop_self : ∀ (L : List DiffItem) (i : Nat) (d : Items2Dict)
    (cs : List ArrangementChange), DInv d L →
    ∃ d', diffLoop L i d cs = .ok (d', cs) ∧ DInv d' [] := by
  intro L
  induction L with
  | nil =>
    intro i d cs h
    exact ⟨d, rfl, h⟩
  | cons item rest ih =>
    intro i d cs h
    obtain ⟨hnd, hfind⟩ := h
    have hfk : filterKey (item :: rest) (dkey item) =
        item :: filterKey rest (dkey item) := by
      simp [filterKey_cons]
    rcases hfind (dkey item) with hsome | ⟨_, hemp⟩
    · rw [hfk] at hsome
      rw [diffLoop_cons_self item rest i d cs _ hsome]
      apply ih
      refine ⟨by rw [keys_dictSet]; exact hnd, ?_⟩
      intro k
      rw [dictFind_dictSet]
      by_cases hk : k = dkey item
      · subst hk
        left
        rw [if_pos ⟨rfl, by rw [hsome]; rfl⟩]
      · rw [if_neg (by simp [hk])]
        have heq : filterKey rest k = filterKey (item :: rest) k := by
          rw [filterKey_cons, if_neg (fun h => hk h.symm)]
        rw [heq]
        exact hfind k
    · rw [hfk] at hemp
      cases hemp

theorem find_of_mem_nodup : ∀ (d : Items2Dict),
    (d.map Prod.fst).Nodup → ∀ e ∈ d, dictFind d e.1 = some e.2 := by
  intro d
  induction d with
  | nil => intro _ e he; cases he
  | cons e0 rest ih =>
    intro hnd e he
    obtain ⟨k0, v0⟩ := e0
    rw [List.map_cons, List.nodup_cons] at hnd
    rcases List.mem_cons.mp he with he | he
    · subst he
      simp [dictFind]
    · have hmem : e.1 ∈ rest.map Prod.fst := List.mem_map_of_mem Prod.fst he
      have hk : ¬k0 = e.1 := by
        intro hkk
        exact hnd.1 (hkk ▸ hmem)
      simp only [dictFind, if_neg hk]
      exact ih hnd.2 e he

theorem DInv_nil_values (d : Items2Dict) (h : DInv d []) :
    ∀ e ∈ d, e.2 = [] := by
  obtain ⟨hnd, hfind⟩ := h
  intro e he
  have hf : dictFind d e.1 = some e.2 := find_of_mem_nodup d hnd e he
  rcases hfind e.1 with h1 | ⟨h1, _⟩
  · rw [hf, filterKey_nil] at h1
    injection h1
  · rw [hf] at h1
    cases h1

theorem addedChanges_empty : ∀ (d : Items2Dict)
    (cs : List ArrangementChange), (∀ e ∈ d, e.2 = []) →
    addedChanges d cs = .ok cs := by
  intro d
  induction d with
  | nil => intro cs _; rfl
  | cons e rest ih =>
    intro cs h
    obtain ⟨k, items⟩ := e
    have h0 : items = [] := h (k, items) (by simp)
    subst h0
    simp only [addedChanges, addedChangesLoop]
    exact ih cs (fun e he => h e (by simp [he]))

/-- C5: for every arrangement X (including arrangements containing
several items with the same (itemType, clipIndex, start) key),
`diff_arrangement X X` returns the empty change list. -/
theorem C5_diff_self (X : List DiffItem) : diff_arrangement X X = .ok [] := by
  obtain ⟨d', heq, hinv⟩ :=
    diffLoop_self X 0 (buildItems2Dict X) [] (DInv_buildItems2Dict X)
  unfold diff_arrangement
  rw [heq]
  show addedChanges d' [] = Except.ok []
  rw [addedChanges_empty d' [] (DInv_nil_values d' hinv)]

end FLPX
